import Mathlib

/-!
# nixostest: the provisioner CLI (`main.go`)

A shallow embedding of `main.go`.  The program is sequential; everything it
does to the outside world (log lines, engine calls, provider calls, the file
read) is recorded in an event trace, and the answers of the outside world are
the fields of a `World`.  A run is a trace together with the way the process
ended: normal return, `os.Exit` with a status, or a runtime panic.

What is assumed of the automation engine, which is not part of the program:
`Stack.Up` runs the inline program `deployFunc` at most once, in this process
(so that `os.Exit` inside it ends the process), and no other engine call runs
it.  The results of all engine and provider calls are otherwise arbitrary.
Log lines are recorded without the timestamp header of the standard logger.
-/

namespace Nixostest

/-! ## Go values -/

/-- Go `string`: an immutable sequence of bytes (not necessarily UTF-8). -/
structure GoString where
  bytes : List UInt8
deriving DecidableEq

/-- String literal of the source text: the UTF-8 bytes of the literal. -/
def GoString.lit (s : String) : GoString := ⟨s.toUTF8.data.toList⟩

/-- Go conversion `string(b)` of a `[]byte`: the same bytes. -/
def GoString.ofBytes (b : List UInt8) : GoString := ⟨b⟩

/-- Go `len(s)` of a string: its number of bytes. -/
def GoString.len (s : GoString) : Nat := s.bytes.length

instance : Append GoString := ⟨fun a b => ⟨a.bytes ++ b.bytes⟩⟩

open GoString (lit)

/-- Go `error` value (non-nil), observed through `err.Error()`. -/
structure GoError where
  msg : GoString
deriving DecidableEq

/-- Dynamic value of type `interface{}` as found in an output mapping. -/
inductive AnyValue where
  | nil
  | str (s : GoString)
  | bool (b : Bool)
  | other (tag : Nat)
deriving DecidableEq

/-- Type `auto.OutputValue`. -/
structure OutputValue where
  Value : AnyValue
  Secret : Bool
deriving DecidableEq

/-- Type `auto.OutputMap`, a Go `map[string]OutputValue`, as an association list. -/
abbrev OutputMap := List (GoString × OutputValue)

/-- Go map index `m[k]`: the zero value when the key is absent. -/
def OutputMap.index (m : OutputMap) (k : GoString) : OutputValue :=
  match m.lookup k with
  | some v => v
  | none => ⟨AnyValue.nil, false⟩

/-- Type `auto.UpResult`; only `Outputs` is read by the program. -/
structure UpResult where
  Outputs : OutputMap
deriving DecidableEq

/-- Type `digitalocean.LookupSshKeyResult`. -/
structure LookupSshKeyResult where
  Fingerprint : GoString
  Id : GoString
  Name : GoString
  PublicKey : GoString
deriving DecidableEq

/-- The fields of `digitalocean.DropletArgs` the program sets; all others stay nil. -/
structure DropletArgs where
  Image : GoString
  Size : GoString
  Region : GoString
  SshKeys : List GoString
  UserData : Option GoString
deriving DecidableEq

/-- An unresolved output of a declared resource (`pulumi.StringOutput`). -/
structure StringOutput where
  id : Nat
deriving DecidableEq

/-- The fields of the `*digitalocean.Droplet` resource the program reads. -/
structure Droplet where
  Ipv4Address : StringOutput
  Name : StringOutput
deriving DecidableEq

/-! ## Events, outcomes and runs -/

/-- What the program does to the outside world, in order. -/
inductive Event where
  | log (line : GoString)
  | readFile (path : GoString)
  | lookupSshKey (name : GoString)
  | newDroplet (name : GoString) (args : DropletArgs)
  | ctxExport (key : GoString) (value : StringOutput)
  | upsertStack (stackName projectName : GoString)
  | installPlugin (name version : GoString)
  | setConfig (key value : GoString)
  | refresh
  | destroy
  | up
deriving DecidableEq

/-- How a computation ends: it yields a value, the process exits with a
status (`os.Exit`), or the Go runtime panics. -/
inductive Outcome (α : Type) where
  | done (a : α)
  | exit (code : Nat)
  | panicked
deriving DecidableEq

/-- A computation: the events it emitted and how it ended. -/
structure Run (α : Type) where
  trace : List Event
  result : Outcome α
deriving DecidableEq

/-- Sequencing: the second computation runs only if the first yields a value. -/
def Run.bind {α β : Type} (x : Run α) (f : α → Run β) : Run β :=
  match x.result with
  | Outcome.done a => ⟨x.trace ++ (f a).trace, (f a).result⟩
  | Outcome.exit c => ⟨x.trace, Outcome.exit c⟩
  | Outcome.panicked => ⟨x.trace, Outcome.panicked⟩

instance : Monad Run where
  pure a := ⟨[], Outcome.done a⟩
  bind := Run.bind

/-- Record one event. -/
def emit (e : Event) : Run Unit := ⟨[e], Outcome.done ()⟩

/-- Call `os.Exit(code)`. -/
def osExit {α : Type} (code : Nat) : Run α := ⟨[], Outcome.exit code⟩

/-- Go runtime panic. -/
def goPanic {α : Type} : Run α := ⟨[], Outcome.panicked⟩

/-! ## The outside world -/

/-- The answers of the environment: process arguments and environment
variables, the file system, the automation engine and the provider. -/
structure World where
  /-- Value of `os.Args` (program name first). -/
  osArgs : List GoString
  /-- Function `os.Getenv`. -/
  getenv : GoString → GoString
  /-- Function `os.ReadFile`. -/
  readFile : GoString → Except GoError (List UInt8)
  /-- Error result of `auto.UpsertStackInlineSource` (stack name, project name). -/
  upsertStack : GoString → GoString → Option GoError
  /-- Error result of `Workspace.InstallPlugin` (name, version). -/
  installPlugin : GoString → GoString → Option GoError
  /-- Error result of `Stack.SetConfig` (key, value). -/
  setConfig : GoString → GoString → Option GoError
  /-- Error result of `Stack.Refresh`. -/
  refresh : Option GoError
  /-- Error result of `Stack.Destroy`. -/
  destroy : Option GoError
  /-- The engine may fail in `Stack.Up` before it runs the inline program. -/
  upPreflight : Option GoError
  /-- Result of `Stack.Up` once the inline program has returned the given error value. -/
  upFinish : Option GoError → Except GoError UpResult
  /-- Function `digitalocean.LookupSshKey` (by name). -/
  lookupSshKey : GoString → Except GoError LookupSshKeyResult
  /-- Function `digitalocean.NewDroplet` (resource name, arguments). -/
  newDroplet : GoString → DropletArgs → Except GoError Droplet

/-! ## The standard logger -/

/-- The text `log.Logger.Output` writes for `s`: a newline is appended when
`s` is empty or does not end in one. -/
def withNewline (s : GoString) : GoString :=
  if s.bytes.getLast? = some 10 then s else s ++ lit "\n"

/-- Method `log.Logger.Output`, called by every print function of the standard
logger.  The timestamp header is not modelled. -/
def logOutput (s : GoString) : Run Unit := emit (Event.log (withNewline s))

/-- Call `log.Println(s)` with one string operand. -/
def logPrintln (s : GoString) : Run Unit := logOutput (s ++ lit "\n")

/-- Call `log.Printf` with the format already expanded to `s`. -/
def logPrintf (s : GoString) : Run Unit := logOutput s

/-- Call `log.Fatalf` with the format already expanded to `s`: print, then `os.Exit(1)`. -/
def logFatalf {α : Type} (s : GoString) : Run α := do
  logOutput s
  osExit 1

/-- Call `log.Fatal(err)`: print `err.Error()`, then `os.Exit(1)`. -/
def logFatal {α : Type} (err : GoError) : Run α := do
  logOutput err.msg
  osExit 1

/-! ## The program -/

/-- Slice expression `a[1:]`: panics when `1 > len(a)`. -/
def sliceFrom1 (a : List GoString) : Run (List GoString) :=
  if 1 ≤ a.length then pure (a.drop 1) else goPanic

/-- Index expression `a[1]`: panics when `1 >= len(a)`. -/
def index1 (a : List GoString) : Run GoString :=
  match a.get? 1 with
  | some x => pure x
  | none => goPanic

/-- Lines 28-33 of `main`: the value of the local variable `destroy`, from `os.Args`. -/
def main.destroy (osArgs : List GoString) : Run Bool := do
  let rest ← sliceFrom1 osArgs
  if rest.length > 0 then
    let a1 ← index1 osArgs
    if a1 = lit "destroy" then pure true else pure false
  else pure false

/-- Call `os.ReadFile(path)`. -/
def osReadFile (w : World) (path : GoString) : Run (Except GoError (List UInt8)) := do
  emit (Event.readFile path)
  pure (w.readFile path)

/-- Call `digitalocean.LookupSshKey(ctx, &LookupSshKeyArgs{Name: name}, nil)`. -/
def lookupSshKey (w : World) (name : GoString) : Run (Except GoError LookupSshKeyResult) := do
  emit (Event.lookupSshKey name)
  pure (w.lookupSshKey name)

/-- Call `digitalocean.NewDroplet(ctx, name, args)`. -/
def newDroplet (w : World) (name : GoString) (args : DropletArgs) :
    Run (Except GoError Droplet) := do
  emit (Event.newDroplet name args)
  pure (w.newDroplet name args)

/-- Call `ctx.Export(key, value)`. -/
def ctxExport (key : GoString) (value : StringOutput) : Run Unit :=
  emit (Event.ctxExport key value)

/-- Call `auto.UpsertStackInlineSource(ctx, stackName, projectName, deployFunc)`;
only the error result is kept. -/
def upsertStackInlineSource (w : World) (stackName projectName : GoString) :
    Run (Option GoError) := do
  emit (Event.upsertStack stackName projectName)
  pure (w.upsertStack stackName projectName)

/-- Call `w.InstallPlugin(ctx, name, version)`. -/
def installPlugin (w : World) (name version : GoString) : Run (Option GoError) := do
  emit (Event.installPlugin name version)
  pure (w.installPlugin name version)

/-- Call `s.SetConfig(ctx, key, auto.ConfigValue{Value: value})`. -/
def setConfig (w : World) (key value : GoString) : Run (Option GoError) := do
  emit (Event.setConfig key value)
  pure (w.setConfig key value)

/-- Call `s.Refresh(ctx)`; only the error result is kept. -/
def stackRefresh (w : World) : Run (Option GoError) := do
  emit Event.refresh
  pure w.refresh

/-- Call `s.Destroy(ctx)`; only the error result is kept. -/
def stackDestroy (w : World) : Run (Option GoError) := do
  emit Event.destroy
  pure w.destroy

/-- Function `getUserData`. -/
def getUserData (w : World) : Run (Option GoString) := do
  let configFile := lit "nixos.yml"
  match ← osReadFile w configFile with
  | Except.error err =>
    logFatalf (lit "cannot read config file: " ++ err.msg ++ lit "\n")
  | Except.ok data =>
    pure (some (GoString.ofBytes data))

/-- The closure `deployFunc` of `main`; the result is its Go `error` (none is nil). -/
def deployFunc (w : World) : Run (Option GoError) := do
  match ← lookupSshKey w (w.getenv (lit "SSH_HOST")) with
  | Except.error err =>
    logPrintln err.msg
    pure (some err)
  | Except.ok leonovSshKey =>
    -- operands of the composite literal are evaluated before `NewDroplet` is called
    let userData ← getUserData w
    let args : DropletArgs :=
      { Image := lit "ubuntu-22-10-x64"
        Size := lit "s-2vcpu-2gb-amd"
        Region := lit "sgp1"
        SshKeys := [leonovSshKey.Fingerprint]
        UserData := userData }
    match ← newDroplet w (lit "temp-drop") args with
    | Except.error err => pure (some err)
    | Except.ok droplet =>
      ctxExport (lit "dropletIP") droplet.Ipv4Address
      ctxExport (lit "dropletName") droplet.Name
      pure none

/-- Call `s.Up(ctx)` on the stack whose inline program is `deployFunc`: unless
it fails first, the engine runs the program once, in this process, and then
reports its result. -/
def stackUp (w : World) : Run (Except GoError UpResult) := do
  emit Event.up
  match w.upPreflight with
  | some err => pure (Except.error err)
  | none =>
    let progErr ← deployFunc w
    pure (w.upFinish progErr)

/-- Type assertion `v.(string)`: panics unless the dynamic value is a string. -/
def assertString (v : AnyValue) : Run GoString :=
  match v with
  | AnyValue.str s => pure s
  | _ => goPanic

/-- Function `main`.  Yielding `()` is the normal return (exit status 0). -/
def main (w : World) : Run Unit := do
  let destroy ← main.destroy w.osArgs
  let projectName := lit "nixostest"
  let stackName := lit "dev"
  match ← upsertStackInlineSource w stackName projectName with
  | some err => logFatal err
  | none => pure ()
  match ← installPlugin w (lit "digitalocean") (lit "v4") with
  | some err => logFatalf (lit "failed to install DO plugin: " ++ err.msg ++ lit "\n")
  | none => pure ()
  -- the error returned by `s.SetConfig` is discarded
  let _ ← setConfig w (lit "digitalocean:token") (w.getenv (lit "DIGITALOCEAN_TOKEN"))
  match ← stackRefresh w with
  | some err => logFatalf (lit "failed to refresh the stack: " ++ err.msg ++ lit "\n")
  | none => pure ()
  if destroy then
    logPrintln (lit "destroying stack...")
    match ← stackDestroy w with
    | some err => logFatalf (lit "failed to destroy stack: " ++ err.msg ++ lit "\n")
    | none => pure ()
    logPrintln (lit "stack destroyed")
    osExit 0
  logPrintln (lit "bringing up the stack...")
  match ← stackUp w with
  | Except.error err =>
    logFatalf (lit "failed to bring up the stack: " ++ err.msg ++ lit "\n")
  | Except.ok res =>
    let ip ← assertString (res.Outputs.index (lit "dropletIP")).Value
    logPrintf (lit "Done, droplet IP " ++ ip ++ lit "\n")
    let name ← assertString (res.Outputs.index (lit "dropletName")).Value
    logPrintf (lit "droplet Name " ++ name ++ lit "\n")

/-! ## Expected traces and sample worlds -/

/-- The four engine calls that open every run in which none of them fails
(the result of `SetConfig` plays no part). -/
def setupEvents (w : World) : List Event :=
  [Event.upsertStack (lit "dev") (lit "nixostest"),
   Event.installPlugin (lit "digitalocean") (lit "v4"),
   Event.setConfig (lit "digitalocean:token") (w.getenv (lit "DIGITALOCEAN_TOKEN")),
   Event.refresh]

/-- The arguments `deployFunc` passes to `NewDroplet` for a key fingerprint
and a configuration document. -/
def expectedArgs (fingerprint : GoString) (doc : List UInt8) : DropletArgs :=
  { Image := lit "ubuntu-22-10-x64"
    Size := lit "s-2vcpu-2gb-amd"
    Region := lit "sgp1"
    SshKeys := [fingerprint]
    UserData := some ⟨doc⟩ }

/-- A world in which everything succeeds: no arguments, key "laptop-key"
registered, `nixos.yml` holding `#cloud-config`, engine and provider healthy. -/
def okWorld : World where
  osArgs := [lit "nixostest"]
  getenv := fun k =>
    if k = lit "SSH_HOST" then lit "laptop-key"
    else if k = lit "DIGITALOCEAN_TOKEN" then lit "dop_v1_token"
    else lit ""
  readFile := fun path =>
    if path = lit "nixos.yml" then Except.ok (lit "#cloud-config\n").bytes
    else Except.error ⟨lit "open: no such file or directory"⟩
  upsertStack := fun _ _ => none
  installPlugin := fun _ _ => none
  setConfig := fun _ _ => none
  refresh := none
  destroy := none
  upPreflight := none
  upFinish := fun progErr =>
    match progErr with
    | none =>
      Except.ok ⟨[(lit "dropletIP", ⟨AnyValue.str (lit "203.0.113.7"), false⟩),
                  (lit "dropletName", ⟨AnyValue.str (lit "temp-drop-1a2b3c"), false⟩)]⟩
    | some err => Except.error ⟨lit "program failed: " ++ err.msg⟩
  lookupSshKey := fun name =>
    if name = lit "laptop-key" then
      Except.ok ⟨lit "3b:16:bf:e4:8b:00", lit "512189", name, lit "ssh-ed25519 AAAA"⟩
    else Except.error ⟨lit "ssh key not found"⟩
  newDroplet := fun _ _ => Except.ok ⟨⟨1⟩, ⟨2⟩⟩

/-- As `okWorld`, run as `nixostest destroy`. -/
def destroyWorld : World :=
  { okWorld with osArgs := [lit "nixostest", lit "destroy"] }

/-- As `okWorld`, but `nixos.yml` does not exist. -/
def unreadableWorld : World :=
  { okWorld with readFile := fun _ => Except.error ⟨lit "open nixos.yml: no such file or directory"⟩ }

/-- As `unreadableWorld`, run as `nixostest destroy`. -/
def unreadableDestroyWorld : World :=
  { unreadableWorld with osArgs := [lit "nixostest", lit "destroy"] }

/-- As `okWorld`, but `nixos.yml` is empty. -/
def emptyFileWorld : World :=
  { okWorld with readFile := fun _ => Except.ok [] }

/-- As `okWorld`, but `nixos.yml` holds bytes that are not valid UTF-8. -/
def binaryFileWorld : World :=
  { okWorld with readFile := fun _ => Except.ok [0xff, 0xfe, 0x00, 0x0a] }

/-- As `okWorld`, but no SSH key has the name in `SSH_HOST`. -/
def noKeyWorld : World :=
  { okWorld with lookupSshKey := fun _ => Except.error ⟨lit "boom"⟩ }

/-- As `okWorld`, but the stack cannot be created or selected. -/
def upsertFailWorld : World :=
  { okWorld with upsertStack := fun _ _ => some ⟨lit "boom"⟩ }

/-- As `okWorld`, but the plugin cannot be installed. -/
def installFailWorld : World :=
  { okWorld with installPlugin := fun _ _ => some ⟨lit "boom"⟩ }

/-- As `okWorld`, but `SetConfig` returns an error. -/
def setConfigFailWorld : World :=
  { okWorld with setConfig := fun _ _ => some ⟨lit "failed to set config: exit status 255"⟩ }

/-- As `okWorld`, but the refresh fails. -/
def refreshFailWorld : World :=
  { okWorld with refresh := some ⟨lit "boom"⟩ }

/-- As `destroyWorld`, but the destroy fails. -/
def destroyFailWorld : World :=
  { destroyWorld with destroy := some ⟨lit "boom"⟩ }

/-- As `okWorld`, but the engine fails the update after the declaration ran. -/
def upFailWorld : World :=
  { okWorld with upFinish := fun _ => Except.error ⟨lit "boom"⟩ }

/-- As `okWorld`, but the engine fails in `up` before it runs the declaration. -/
def preflightFailWorld : World :=
  { okWorld with upPreflight := some ⟨lit "boom"⟩ }

/-- As `okWorld`, but the provider rejects the droplet declaration. -/
def declareFailWorld : World :=
  { okWorld with newDroplet := fun _ _ => Except.error ⟨lit "boom"⟩ }

/-- As `okWorld`, but the update reports no outputs at all. -/
def noOutputsWorld : World :=
  { okWorld with upFinish := fun _ => Except.ok ⟨[]⟩ }

/-- As `okWorld`, but the update reports a number under "dropletIP". -/
def numberIpWorld : World :=
  { okWorld with
    upFinish := fun _ =>
      Except.ok ⟨[(lit "dropletIP", ⟨AnyValue.other 0, false⟩),
                  (lit "dropletName", ⟨AnyValue.str (lit "temp-drop-1a2b3c"), false⟩)]⟩ }

/-- As `okWorld`, but the update reports only "dropletIP". -/
def noNameWorld : World :=
  { okWorld with
    upFinish := fun _ =>
      Except.ok ⟨[(lit "dropletIP", ⟨AnyValue.str (lit "203.0.113.7"), false⟩)]⟩ }

/-! ## Basic facts about runs -/

@[simp] theorem Run.pure_eq {α : Type} (a : α) : (pure a : Run α) = ⟨[], Outcome.done a⟩ := rfl

@[simp] theorem Run.bind_eq {α β : Type} (x : Run α) (f : α → Run β) :
    x >>= f = Run.bind x f := rfl

@[simp] theorem Run.bind_done {α β : Type} (t : List Event) (a : α) (f : α → Run β) :
    Run.bind ⟨t, Outcome.done a⟩ f = ⟨t ++ (f a).trace, (f a).result⟩ := rfl

@[simp] theorem Run.bind_exit {α β : Type} (t : List Event) (c : Nat) (f : α → Run β) :
    Run.bind (⟨t, Outcome.exit c⟩ : Run α) f = ⟨t, Outcome.exit c⟩ := rfl

@[simp] theorem Run.bind_panicked {α β : Type} (t : List Event) (f : α → Run β) :
    Run.bind (⟨t, Outcome.panicked⟩ : Run α) f = ⟨t, Outcome.panicked⟩ := rfl

theorem GoString.append_bytes (a b : GoString) : (a ++ b).bytes = a.bytes ++ b.bytes := rfl

theorem GoString.lit_newline_bytes : (lit "\n").bytes = [10] := by decide

/-- Text that already ends in a newline is written as it is. -/
theorem withNewline_append (s : GoString) : withNewline (s ++ lit "\n") = s ++ lit "\n" := by
  have h : (s ++ lit "\n").bytes.getLast? = some 10 := by
    rw [GoString.append_bytes, GoString.lit_newline_bytes]
    simp
  simp [withNewline, h]

theorem logPrintln_eq (s : GoString) :
    logPrintln s = ⟨[Event.log (s ++ lit "\n")], Outcome.done ()⟩ := by
  simp [logPrintln, logOutput, emit, withNewline_append]

theorem logPrintf_newline (s : GoString) :
    logPrintf (s ++ lit "\n") = ⟨[Event.log (s ++ lit "\n")], Outcome.done ()⟩ := by
  simp [logPrintf, logOutput, emit, withNewline_append]

theorem logFatalf_newline {α : Type} (s : GoString) :
    (logFatalf (s ++ lit "\n") : Run α) = ⟨[Event.log (s ++ lit "\n")], Outcome.exit 1⟩ := by
  simp [logFatalf, logOutput, emit, osExit, withNewline_append]

theorem logFatal_eq {α : Type} (err : GoError) :
    (logFatal err : Run α) = ⟨[Event.log (withNewline err.msg)], Outcome.exit 1⟩ := by
  simp [logFatal, logOutput, emit, osExit]

/-- The flag `destroy` for an argument vector with a program name. -/
theorem main_destroy_cons (prog : GoString) (args : List GoString) :
    main.destroy (prog :: args)
      = ⟨[], Outcome.done (decide (args.head? = some (lit "destroy")))⟩ := by
  cases args with
  | nil => simp [main.destroy, sliceFrom1]
  | cons a rest =>
    by_cases h : a = lit "destroy"
    · simp [main.destroy, sliceFrom1, index1, h]
    · simp [main.destroy, sliceFrom1, index1, h]

/-! ## The run of `deployFunc`, `stackUp` and `main`, case by case -/

theorem deployFunc_of_lookup_error (w : World) (e : GoError)
    (hlook : w.lookupSshKey (w.getenv (lit "SSH_HOST")) = Except.error e) :
    deployFunc w =
      ⟨[Event.lookupSshKey (w.getenv (lit "SSH_HOST")), Event.log (e.msg ++ lit "\n")],
       Outcome.done (some e)⟩ := by
  simp [deployFunc, lookupSshKey, emit, hlook, logPrintln_eq]

theorem deployFunc_of_read_error (w : World) (key : LookupSshKeyResult) (e : GoError)
    (hlook : w.lookupSshKey (w.getenv (lit "SSH_HOST")) = Except.ok key)
    (hread : w.readFile (lit "nixos.yml") = Except.error e) :
    deployFunc w =
      ⟨[Event.lookupSshKey (w.getenv (lit "SSH_HOST")),
        Event.readFile (lit "nixos.yml"),
        Event.log (lit "cannot read config file: " ++ e.msg ++ lit "\n")],
       Outcome.exit 1⟩ := by
  simp [deployFunc, lookupSshKey, getUserData, osReadFile, emit, hlook, hread,
    logFatalf_newline]

theorem deployFunc_of_declared (w : World) (key : LookupSshKeyResult) (c : List UInt8)
    (d : Droplet)
    (hlook : w.lookupSshKey (w.getenv (lit "SSH_HOST")) = Except.ok key)
    (hread : w.readFile (lit "nixos.yml") = Except.ok c)
    (hnew : w.newDroplet (lit "temp-drop") (expectedArgs key.Fingerprint c) = Except.ok d) :
    deployFunc w =
      ⟨[Event.lookupSshKey (w.getenv (lit "SSH_HOST")),
        Event.readFile (lit "nixos.yml"),
        Event.newDroplet (lit "temp-drop") (expectedArgs key.Fingerprint c),
        Event.ctxExport (lit "dropletIP") d.Ipv4Address,
        Event.ctxExport (lit "dropletName") d.Name], Outcome.done none⟩ := by
  simp only [expectedArgs] at hnew
  simp [deployFunc, lookupSshKey, getUserData, osReadFile, newDroplet, ctxExport, emit,
    hlook, hread, GoString.ofBytes, expectedArgs, hnew]

theorem deployFunc_of_declare_error (w : World) (key : LookupSshKeyResult) (c : List UInt8)
    (err : GoError)
    (hlook : w.lookupSshKey (w.getenv (lit "SSH_HOST")) = Except.ok key)
    (hread : w.readFile (lit "nixos.yml") = Except.ok c)
    (hnew : w.newDroplet (lit "temp-drop") (expectedArgs key.Fingerprint c)
      = Except.error err) :
    deployFunc w =
      ⟨[Event.lookupSshKey (w.getenv (lit "SSH_HOST")),
        Event.readFile (lit "nixos.yml"),
        Event.newDroplet (lit "temp-drop") (expectedArgs key.Fingerprint c)],
       Outcome.done (some err)⟩ := by
  simp only [expectedArgs] at hnew
  simp [deployFunc, lookupSshKey, getUserData, osReadFile, newDroplet, ctxExport, emit,
    hlook, hread, GoString.ofBytes, expectedArgs, hnew]

theorem stackUp_of_preflight (w : World) (e : GoError) (hpre : w.upPreflight = some e) :
    stackUp w = ⟨[Event.up], Outcome.done (Except.error e)⟩ := by
  simp [stackUp, emit, hpre]

theorem stackUp_of_returned (w : World) (evs : List Event) (r : Option GoError)
    (hpre : w.upPreflight = none) (hdep : deployFunc w = ⟨evs, Outcome.done r⟩) :
    stackUp w = ⟨Event.up :: evs, Outcome.done (w.upFinish r)⟩ := by
  simp [stackUp, emit, hpre, hdep]

theorem stackUp_of_exit (w : World) (evs : List Event) (c : Nat)
    (hpre : w.upPreflight = none) (hdep : deployFunc w = ⟨evs, Outcome.exit c⟩) :
    stackUp w = ⟨Event.up :: evs, Outcome.exit c⟩ := by
  simp [stackUp, emit, hpre, hdep]

theorem main_of_no_args (w : World) (hargs : w.osArgs = []) :
    main w = ⟨[], Outcome.panicked⟩ := by
  simp [main, hargs, main.destroy, sliceFrom1, goPanic]

theorem main_of_upsert_error (w : World) (prog : GoString) (args : List GoString)
    (e : GoError) (hargs : w.osArgs = prog :: args)
    (h1 : w.upsertStack (lit "dev") (lit "nixostest") = some e) :
    main w = ⟨[Event.upsertStack (lit "dev") (lit "nixostest"),
               Event.log (withNewline e.msg)], Outcome.exit 1⟩ := by
  simp [main, hargs, main_destroy_cons, upsertStackInlineSource, logFatal_eq, emit, h1]

theorem main_of_install_error (w : World) (prog : GoString) (args : List GoString)
    (e : GoError) (hargs : w.osArgs = prog :: args)
    (h1 : w.upsertStack (lit "dev") (lit "nixostest") = none)
    (h2 : w.installPlugin (lit "digitalocean") (lit "v4") = some e) :
    main w = ⟨[Event.upsertStack (lit "dev") (lit "nixostest"),
               Event.installPlugin (lit "digitalocean") (lit "v4"),
               Event.log (lit "failed to install DO plugin: " ++ e.msg ++ lit "\n")],
              Outcome.exit 1⟩ := by
  simp [main, hargs, main_destroy_cons, upsertStackInlineSource, installPlugin,
    logFatalf_newline, emit, h1, h2]

theorem main_of_refresh_error (w : World) (prog : GoString) (args : List GoString)
    (e : GoError) (hargs : w.osArgs = prog :: args)
    (h1 : w.upsertStack (lit "dev") (lit "nixostest") = none)
    (h2 : w.installPlugin (lit "digitalocean") (lit "v4") = none)
    (h3 : w.refresh = some e) :
    main w = ⟨setupEvents w ++
               [Event.log (lit "failed to refresh the stack: " ++ e.msg ++ lit "\n")],
              Outcome.exit 1⟩ := by
  simp [main, hargs, main_destroy_cons, upsertStackInlineSource, installPlugin, setConfig,
    stackRefresh, logFatalf_newline, emit, setupEvents, h1, h2, h3]

theorem main_of_destroy_error (w : World) (prog : GoString) (args : List GoString)
    (e : GoError) (hargs : w.osArgs = prog :: args)
    (hmode : args.head? = some (lit "destroy"))
    (h1 : w.upsertStack (lit "dev") (lit "nixostest") = none)
    (h2 : w.installPlugin (lit "digitalocean") (lit "v4") = none)
    (h3 : w.refresh = none) (h4 : w.destroy = some e) :
    main w = ⟨setupEvents w ++
               [Event.log (lit "destroying stack..." ++ lit "\n"),
                Event.destroy,
                Event.log (lit "failed to destroy stack: " ++ e.msg ++ lit "\n")],
              Outcome.exit 1⟩ := by
  simp [main, hargs, main_destroy_cons, hmode, upsertStackInlineSource, installPlugin,
    setConfig, stackRefresh, stackDestroy, logPrintln_eq, logFatalf_newline, emit,
    setupEvents, h1, h2, h3, h4]

theorem main_of_destroyed (w : World) (prog : GoString) (args : List GoString)
    (hargs : w.osArgs = prog :: args)
    (hmode : args.head? = some (lit "destroy"))
    (h1 : w.upsertStack (lit "dev") (lit "nixostest") = none)
    (h2 : w.installPlugin (lit "digitalocean") (lit "v4") = none)
    (h3 : w.refresh = none) (h4 : w.destroy = none) :
    main w = ⟨setupEvents w ++
               [Event.log (lit "destroying stack..." ++ lit "\n"),
                Event.destroy,
                Event.log (lit "stack destroyed" ++ lit "\n")],
              Outcome.exit 0⟩ := by
  simp [main, hargs, main_destroy_cons, hmode, upsertStackInlineSource, installPlugin,
    setConfig, stackRefresh, stackDestroy, logPrintln_eq, emit, osExit,
    setupEvents, h1, h2, h3, h4]

theorem main_of_up_exit (w : World) (prog : GoString) (args : List GoString)
    (evs : List Event) (c : Nat) (hargs : w.osArgs = prog :: args)
    (hmode : ¬ args.head? = some (lit "destroy"))
    (h1 : w.upsertStack (lit "dev") (lit "nixostest") = none)
    (h2 : w.installPlugin (lit "digitalocean") (lit "v4") = none)
    (h3 : w.refresh = none) (hup : stackUp w = ⟨evs, Outcome.exit c⟩) :
    main w = ⟨setupEvents w ++ [Event.log (lit "bringing up the stack..." ++ lit "\n")] ++ evs,
              Outcome.exit c⟩ := by
  simp [main, hargs, main_destroy_cons, hmode, upsertStackInlineSource, installPlugin,
    setConfig, stackRefresh, logPrintln_eq, emit, setupEvents, h1, h2, h3, hup]

theorem main_of_up_error (w : World) (prog : GoString) (args : List GoString)
    (evs : List Event) (e : GoError) (hargs : w.osArgs = prog :: args)
    (hmode : ¬ args.head? = some (lit "destroy"))
    (h1 : w.upsertStack (lit "dev") (lit "nixostest") = none)
    (h2 : w.installPlugin (lit "digitalocean") (lit "v4") = none)
    (h3 : w.refresh = none) (hup : stackUp w = ⟨evs, Outcome.done (Except.error e)⟩) :
    main w = ⟨setupEvents w ++ [Event.log (lit "bringing up the stack..." ++ lit "\n")] ++ evs
               ++ [Event.log (lit "failed to bring up the stack: " ++ e.msg ++ lit "\n")],
              Outcome.exit 1⟩ := by
  simp [main, hargs, main_destroy_cons, hmode, upsertStackInlineSource, installPlugin,
    setConfig, stackRefresh, logPrintln_eq, logFatalf_newline, emit, setupEvents,
    h1, h2, h3, hup]

theorem main_of_up_ok (w : World) (prog : GoString) (args : List GoString)
    (evs : List Event) (res : UpResult) (hargs : w.osArgs = prog :: args)
    (hmode : ¬ args.head? = some (lit "destroy"))
    (h1 : w.upsertStack (lit "dev") (lit "nixostest") = none)
    (h2 : w.installPlugin (lit "digitalocean") (lit "v4") = none)
    (h3 : w.refresh = none) (hup : stackUp w = ⟨evs, Outcome.done (Except.ok res)⟩) :
    main w =
      match (res.Outputs.index (lit "dropletIP")).Value,
            (res.Outputs.index (lit "dropletName")).Value with
      | AnyValue.str ip, AnyValue.str name =>
        ⟨setupEvents w ++ [Event.log (lit "bringing up the stack..." ++ lit "\n")] ++ evs
          ++ [Event.log (lit "Done, droplet IP " ++ ip ++ lit "\n"),
              Event.log (lit "droplet Name " ++ name ++ lit "\n")], Outcome.done ()⟩
      | AnyValue.str ip, _ =>
        ⟨setupEvents w ++ [Event.log (lit "bringing up the stack..." ++ lit "\n")] ++ evs
          ++ [Event.log (lit "Done, droplet IP " ++ ip ++ lit "\n")], Outcome.panicked⟩
      | _, _ =>
        ⟨setupEvents w ++ [Event.log (lit "bringing up the stack..." ++ lit "\n")] ++ evs,
         Outcome.panicked⟩ := by
  cases hip : (res.Outputs.index (lit "dropletIP")).Value <;>
  cases hname : (res.Outputs.index (lit "dropletName")).Value <;>
  simp [main, hargs, main_destroy_cons, hmode, upsertStackInlineSource, installPlugin,
    setConfig, stackRefresh, logPrintln_eq, logPrintf_newline, emit, setupEvents,
    assertString, goPanic, h1, h2, h3, hup, hip, hname]

/-! ## The claims -/

set_option maxRecDepth 8000

/-- C1: for every argument list after the program name, the mode selection
ends without a panic, and destroy mode is selected exactly when the list is
non-empty and its first argument is the string "destroy"; in every other case
create/update mode is selected. -/
theorem destroy_selected_iff (prog : GoString) (args : List GoString) :
    ∃ b : Bool, main.destroy (prog :: args) = ⟨[], Outcome.done b⟩ ∧
      (b = true ↔ ∃ rest, args = lit "destroy" :: rest) ∧
      (b = false ↔ (args = [] ∨ ∃ a rest, args = a :: rest ∧ a ≠ lit "destroy")) := by
  refine ⟨_, main_destroy_cons prog args, ?_, ?_⟩
  · cases args with
    | nil => simp
    | cons a rest => simp
  · cases args with
    | nil => simp
    | cons a rest => simp

/-- C4: in destroy mode the run never calls `up` and never declares a droplet;
and when upsert, plugin install, refresh and destroy succeed, the run is
exactly: the four setup calls, the line "destroying stack...", the destroy
call, the line "stack destroyed", and then exit status 0 with nothing after. -/
theorem destroy_mode_run (w : World) (prog : GoString) (rest : List GoString)
    (hargs : w.osArgs = prog :: lit "destroy" :: rest) :
    Event.up ∉ (main w).trace ∧
    (∀ n a, Event.newDroplet n a ∉ (main w).trace) ∧
    (w.upsertStack (lit "dev") (lit "nixostest") = none →
      w.installPlugin (lit "digitalocean") (lit "v4") = none →
      w.refresh = none → w.destroy = none →
      main w = ⟨setupEvents w ++
                [Event.log (lit "destroying stack..." ++ lit "\n"),
                 Event.destroy,
                 Event.log (lit "stack destroyed" ++ lit "\n")], Outcome.exit 0⟩) := by
  have hmode : (lit "destroy" :: rest).head? = some (lit "destroy") := rfl
  rcases h1 : w.upsertStack (lit "dev") (lit "nixostest") with _ | e1
  · rcases h2 : w.installPlugin (lit "digitalocean") (lit "v4") with _ | e2
    · rcases h3 : w.refresh with _ | e3
      · rcases h4 : w.destroy with _ | e4
        · rw [main_of_destroyed w prog _ hargs hmode h1 h2 h3 h4]
          simp [setupEvents]
        · rw [main_of_destroy_error w prog _ e4 hargs hmode h1 h2 h3 h4]
          simp [setupEvents]
      · rw [main_of_refresh_error w prog _ e3 hargs h1 h2 h3]
        simp [setupEvents]
    · rw [main_of_install_error w prog _ e2 hargs h1 h2]
      simp
  · rw [main_of_upsert_error w prog _ e1 hargs h1]
    simp

/-- Witness of C4 on the run `nixostest destroy` in a healthy world. -/
theorem destroy_mode_run_witness :
    Event.up ∉ (main destroyWorld).trace ∧
    (∀ n a, Event.newDroplet n a ∉ (main destroyWorld).trace) ∧
    main destroyWorld = ⟨setupEvents destroyWorld ++
                [Event.log (lit "destroying stack..." ++ lit "\n"),
                 Event.destroy,
                 Event.log (lit "stack destroyed" ++ lit "\n")], Outcome.exit 0⟩ :=
  have h := destroy_mode_run destroyWorld (lit "nixostest") [] rfl
  ⟨h.1, h.2.1, h.2.2 rfl rfl rfl rfl⟩

/-- C7: when `nixos.yml` is readable with content `c`, `getUserData` returns a
payload whose bytes are exactly `c` (same bytes, same length), whatever `c`
is, after the one read and with nothing logged. -/
theorem getUserData_roundtrip (w : World) (c : List UInt8)
    (hread : w.readFile (lit "nixos.yml") = Except.ok c) :
    ∃ payload : GoString,
      getUserData w = ⟨[Event.readFile (lit "nixos.yml")], Outcome.done (some payload)⟩ ∧
      payload.bytes = c ∧ payload.len = c.length := by
  refine ⟨GoString.ofBytes c, ?_, rfl, rfl⟩
  simp [getUserData, osReadFile, emit, hread]

/-- Witness of C7 on an empty file and on a file that is not valid UTF-8. -/
theorem getUserData_roundtrip_witness :
    (∃ payload : GoString,
      getUserData emptyFileWorld
        = ⟨[Event.readFile (lit "nixos.yml")], Outcome.done (some payload)⟩ ∧
      payload.bytes = [] ∧ payload.len = ([] : List UInt8).length) ∧
    (∃ payload : GoString,
      getUserData binaryFileWorld
        = ⟨[Event.readFile (lit "nixos.yml")], Outcome.done (some payload)⟩ ∧
      payload.bytes = [0xff, 0xfe, 0x00, 0x0a] ∧
      payload.len = ([0xff, 0xfe, 0x00, 0x0a] : List UInt8).length) :=
  ⟨getUserData_roundtrip emptyFileWorld [] rfl,
   getUserData_roundtrip binaryFileWorld [0xff, 0xfe, 0x00, 0x0a] rfl⟩

/-- C6: when the lookup of the key named by `SSH_HOST` succeeds and
`nixos.yml` is readable with content `c`, `deployFunc` declares exactly one
droplet, named "temp-drop", with image "ubuntu-22-10-x64", size
"s-2vcpu-2gb-amd", region "sgp1", the key list holding just the fingerprint
found, and user data `c`; if the declaration succeeds it then registers
exactly the outputs "dropletIP" (the droplet's IPv4 address) and
"dropletName" (its name), in that order, and returns nil; if the declaration
fails nothing is registered and that error is returned. -/
theorem deployFunc_declares_droplet (w : World) (key : LookupSshKeyResult) (c : List UInt8)
    (hlook : w.lookupSshKey (w.getenv (lit "SSH_HOST")) = Except.ok key)
    (hread : w.readFile (lit "nixos.yml") = Except.ok c) :
    expectedArgs key.Fingerprint c =
      { Image := lit "ubuntu-22-10-x64", Size := lit "s-2vcpu-2gb-amd", Region := lit "sgp1",
        SshKeys := [key.Fingerprint], UserData := some (GoString.ofBytes c) } ∧
    (∀ d, w.newDroplet (lit "temp-drop") (expectedArgs key.Fingerprint c) = Except.ok d →
      deployFunc w =
        ⟨[Event.lookupSshKey (w.getenv (lit "SSH_HOST")),
          Event.readFile (lit "nixos.yml"),
          Event.newDroplet (lit "temp-drop") (expectedArgs key.Fingerprint c),
          Event.ctxExport (lit "dropletIP") d.Ipv4Address,
          Event.ctxExport (lit "dropletName") d.Name], Outcome.done none⟩) ∧
    (∀ err, w.newDroplet (lit "temp-drop") (expectedArgs key.Fingerprint c) = Except.error err →
      deployFunc w =
        ⟨[Event.lookupSshKey (w.getenv (lit "SSH_HOST")),
          Event.readFile (lit "nixos.yml"),
          Event.newDroplet (lit "temp-drop") (expectedArgs key.Fingerprint c)],
         Outcome.done (some err)⟩) :=
  ⟨rfl, fun d hd => deployFunc_of_declared w key c d hlook hread hd,
   fun err hd => deployFunc_of_declare_error w key c err hlook hread hd⟩

/-- Witness of C6 in the healthy world. -/
theorem deployFunc_declares_droplet_witness :
    deployFunc okWorld =
      ⟨[Event.lookupSshKey (lit "laptop-key"),
        Event.readFile (lit "nixos.yml"),
        Event.newDroplet (lit "temp-drop")
          { Image := lit "ubuntu-22-10-x64", Size := lit "s-2vcpu-2gb-amd", Region := lit "sgp1",
            SshKeys := [lit "3b:16:bf:e4:8b:00"], UserData := some (lit "#cloud-config\n") },
        Event.ctxExport (lit "dropletIP") ⟨1⟩,
        Event.ctxExport (lit "dropletName") ⟨2⟩], Outcome.done none⟩ :=
  (deployFunc_declares_droplet okWorld
    ⟨lit "3b:16:bf:e4:8b:00", lit "512189", lit "laptop-key", lit "ssh-ed25519 AAAA"⟩
    (lit "#cloud-config\n").bytes rfl rfl).2.1 ⟨⟨1⟩, ⟨2⟩⟩ rfl

/-- C5: when the SSH-key lookup returns an error, `deployFunc` logs the error
text and returns that same error, having declared no droplet and registered
no output; and if the engine's `up` fails whenever the declaration returns an
error, every run of `main` that reaches the lookup ends with exit status 1. -/
theorem deployFunc_lookup_error (w : World) (e : GoError)
    (hlook : w.lookupSshKey (w.getenv (lit "SSH_HOST")) = Except.error e) :
    deployFunc w =
      ⟨[Event.lookupSshKey (w.getenv (lit "SSH_HOST")), Event.log (e.msg ++ lit "\n")],
       Outcome.done (some e)⟩ ∧
    ((∀ err, ∃ err2, w.upFinish (some err) = Except.error err2) →
      Event.lookupSshKey (w.getenv (lit "SSH_HOST")) ∈ (main w).trace →
      (main w).result = Outcome.exit 1) := by
  have hdep := deployFunc_of_lookup_error w e hlook
  refine ⟨hdep, ?_⟩
  intro hup
  obtain ⟨err2, h5⟩ := hup e
  rcases hargs : w.osArgs with _ | ⟨prog, args⟩
  · rw [main_of_no_args w hargs]
    simp
  rcases h1 : w.upsertStack (lit "dev") (lit "nixostest") with _ | e1
  swap
  · rw [main_of_upsert_error w prog args e1 hargs h1]
    simp
  rcases h2 : w.installPlugin (lit "digitalocean") (lit "v4") with _ | e2
  swap
  · rw [main_of_install_error w prog args e2 hargs h1 h2]
    simp
  rcases h3 : w.refresh with _ | e3
  swap
  · rw [main_of_refresh_error w prog args e3 hargs h1 h2 h3]
    simp
  by_cases hmode : args.head? = some (lit "destroy")
  · rcases h4 : w.destroy with _ | e4
    · rw [main_of_destroyed w prog args hargs hmode h1 h2 h3 h4]
      simp [setupEvents]
    · rw [main_of_destroy_error w prog args e4 hargs hmode h1 h2 h3 h4]
      simp
  · rcases h6 : w.upPreflight with _ | e6
    · have hst := stackUp_of_returned w _ _ h6 hdep
      rw [h5] at hst
      rw [main_of_up_error w prog args _ err2 hargs hmode h1 h2 h3 hst]
      simp
    · rw [main_of_up_error w prog args _ e6 hargs hmode h1 h2 h3 (stackUp_of_preflight w e6 h6)]
      simp

/-- Witness of C5 in a world where the key name is unknown. -/
theorem deployFunc_lookup_error_witness :
    deployFunc noKeyWorld =
      ⟨[Event.lookupSshKey (lit "laptop-key"), Event.log (lit "boom" ++ lit "\n")],
       Outcome.done (some ⟨lit "boom"⟩)⟩ ∧
    (main noKeyWorld).result = Outcome.exit 1 :=
  have h := deployFunc_lookup_error noKeyWorld ⟨lit "boom"⟩ rfl
  ⟨h.1, h.2 (fun err => ⟨⟨lit "program failed: " ++ err.msg⟩, rfl⟩) (by decide)⟩

/-- C8: in create/update mode, when the run reaches `up` and `up` succeeds
with an output mapping holding the string `ip` under "dropletIP" and the
string `name` under "dropletName", the run ends normally and what it prints
after the `up` call is exactly the line with `ip` followed by the line with
`name`, each once. -/
theorem up_outputs_printed (w : World) (prog : GoString) (args : List GoString)
    (evs : List Event) (res : UpResult) (ip name : GoString) (sec1 sec2 : Bool)
    (hargs : w.osArgs = prog :: args)
    (hmode : args.head? ≠ some (lit "destroy"))
    (h1 : w.upsertStack (lit "dev") (lit "nixostest") = none)
    (h2 : w.installPlugin (lit "digitalocean") (lit "v4") = none)
    (h3 : w.refresh = none)
    (hup : stackUp w = ⟨evs, Outcome.done (Except.ok res)⟩)
    (hip : res.Outputs.lookup (lit "dropletIP") = some ⟨AnyValue.str ip, sec1⟩)
    (hname : res.Outputs.lookup (lit "dropletName") = some ⟨AnyValue.str name, sec2⟩) :
    main w =
      ⟨setupEvents w ++ [Event.log (lit "bringing up the stack..." ++ lit "\n")] ++ evs
        ++ [Event.log (lit "Done, droplet IP " ++ ip ++ lit "\n"),
            Event.log (lit "droplet Name " ++ name ++ lit "\n")], Outcome.done ()⟩ := by
  have hv1 : (res.Outputs.index (lit "dropletIP")).Value = AnyValue.str ip := by
    simp [OutputMap.index, hip]
  have hv2 : (res.Outputs.index (lit "dropletName")).Value = AnyValue.str name := by
    simp [OutputMap.index, hname]
  rw [main_of_up_ok w prog args evs res hargs hmode h1 h2 h3 hup, hv1, hv2]

/-- Witness of C8 in the healthy world. -/
theorem up_outputs_printed_witness :
    main okWorld =
      ⟨setupEvents okWorld ++ [Event.log (lit "bringing up the stack..." ++ lit "\n")]
        ++ [Event.up,
            Event.lookupSshKey (lit "laptop-key"),
            Event.readFile (lit "nixos.yml"),
            Event.newDroplet (lit "temp-drop")
              (expectedArgs (lit "3b:16:bf:e4:8b:00") (lit "#cloud-config\n").bytes),
            Event.ctxExport (lit "dropletIP") ⟨1⟩,
            Event.ctxExport (lit "dropletName") ⟨2⟩]
        ++ [Event.log (lit "Done, droplet IP " ++ lit "203.0.113.7" ++ lit "\n"),
            Event.log (lit "droplet Name " ++ lit "temp-drop-1a2b3c" ++ lit "\n")],
       Outcome.done ()⟩ :=
  up_outputs_printed okWorld (lit "nixostest") [] _
    ⟨[(lit "dropletIP", ⟨AnyValue.str (lit "203.0.113.7"), false⟩),
      (lit "dropletName", ⟨AnyValue.str (lit "temp-drop-1a2b3c"), false⟩)]⟩
    (lit "203.0.113.7") (lit "temp-drop-1a2b3c") false false
    rfl (by decide) rfl rfl rfl rfl (by decide) (by decide)

/-- C10: in create/update mode, when the run reaches `up` and `up` succeeds:
if the output mapping has no string under "dropletIP", the run ends in a
runtime panic right after the `up` call with nothing printed; if it has the
string `ip` there but no string under "dropletName", the run prints the IP
line only and then ends in a runtime panic.  In neither case does it return
normally or leave through `os.Exit`. -/
theorem missing_output_panics (w : World) (prog : GoString) (args : List GoString)
    (evs : List Event) (res : UpResult)
    (hargs : w.osArgs = prog :: args)
    (hmode : args.head? ≠ some (lit "destroy"))
    (h1 : w.upsertStack (lit "dev") (lit "nixostest") = none)
    (h2 : w.installPlugin (lit "digitalocean") (lit "v4") = none)
    (h3 : w.refresh = none)
    (hup : stackUp w = ⟨evs, Outcome.done (Except.ok res)⟩) :
    ((∀ s sec, res.Outputs.lookup (lit "dropletIP") ≠ some ⟨AnyValue.str s, sec⟩) →
      main w =
        ⟨setupEvents w ++ [Event.log (lit "bringing up the stack..." ++ lit "\n")] ++ evs,
         Outcome.panicked⟩) ∧
    (∀ ip sec, res.Outputs.lookup (lit "dropletIP") = some ⟨AnyValue.str ip, sec⟩ →
      (∀ s sec2, res.Outputs.lookup (lit "dropletName") ≠ some ⟨AnyValue.str s, sec2⟩) →
      main w =
        ⟨setupEvents w ++ [Event.log (lit "bringing up the stack..." ++ lit "\n")] ++ evs
          ++ [Event.log (lit "Done, droplet IP " ++ ip ++ lit "\n")],
         Outcome.panicked⟩) := by
  have key : ∀ k : GoString,
      (∀ s sec, res.Outputs.lookup k ≠ some ⟨AnyValue.str s, sec⟩) →
      ∀ s, (res.Outputs.index k).Value ≠ AnyValue.str s := by
    intro k hk s hs
    unfold OutputMap.index at hs
    cases hl : List.lookup k res.Outputs with
    | none => simp [hl] at hs
    | some v =>
      simp only [hl] at hs
      apply hk s v.Secret
      rw [hl, ← hs]
  have hmain := main_of_up_ok w prog args evs res hargs hmode h1 h2 h3 hup
  constructor
  · intro hno
    have hv := key _ hno
    rw [hmain]
    split
    · rename_i heq _
      exact absurd heq (hv _)
    · rename_i heq _
      exact absurd heq (hv _)
    · rfl
  · intro ip sec hip hno
    have hv1 : (res.Outputs.index (lit "dropletIP")).Value = AnyValue.str ip := by
      simp [OutputMap.index, hip]
    have hv := key _ hno
    rw [hmain, hv1]
    split
    · rename_i heq1 heq2
      exact absurd heq2 (hv _)
    · rename_i heq1 heq2
      cases heq1
      rfl
    · rename_i hne1 hne2
      exact (hne1 ip rfl).elim

/-- Witness of C10: no outputs at all, a number under "dropletIP", and a
string under "dropletIP" with "dropletName" absent. -/
theorem missing_output_panics_witness :
    main noOutputsWorld =
      ⟨setupEvents noOutputsWorld
        ++ [Event.log (lit "bringing up the stack..." ++ lit "\n")]
        ++ (stackUp noOutputsWorld).trace, Outcome.panicked⟩ ∧
    main numberIpWorld =
      ⟨setupEvents numberIpWorld
        ++ [Event.log (lit "bringing up the stack..." ++ lit "\n")]
        ++ (stackUp numberIpWorld).trace, Outcome.panicked⟩ ∧
    main noNameWorld =
      ⟨setupEvents noNameWorld
        ++ [Event.log (lit "bringing up the stack..." ++ lit "\n")]
        ++ (stackUp noNameWorld).trace
        ++ [Event.log (lit "Done, droplet IP " ++ lit "203.0.113.7" ++ lit "\n")],
       Outcome.panicked⟩ :=
  ⟨(missing_output_panics noOutputsWorld (lit "nixostest") [] _ ⟨[]⟩
      rfl (by decide) rfl rfl rfl rfl).1 (fun _ _ h => by cases h),
   (missing_output_panics numberIpWorld (lit "nixostest") [] _
      ⟨[(lit "dropletIP", ⟨AnyValue.other 0, false⟩),
        (lit "dropletName", ⟨AnyValue.str (lit "temp-drop-1a2b3c"), false⟩)]⟩
      rfl (by decide) rfl rfl rfl rfl).1
      (fun s sec h => by
        have h2 : some (⟨AnyValue.other 0, false⟩ : OutputValue) = some ⟨AnyValue.str s, sec⟩ := h
        cases h2),
   (missing_output_panics noNameWorld (lit "nixostest") [] _
      ⟨[(lit "dropletIP", ⟨AnyValue.str (lit "203.0.113.7"), false⟩)]⟩
      rfl (by decide) rfl rfl rfl rfl).2 (lit "203.0.113.7") false (by decide)
      (fun s sec h => by
        have h2 : (none : Option OutputValue) = some ⟨AnyValue.str s, sec⟩ := h
        cases h2)⟩

/-- C3, as stated, fails: with `nixos.yml` missing, a run without arguments
installs the plugin, refreshes the stack, calls `up` and looks the SSH key up
before the read is attempted and the fatal exit happens; and a run with
`destroy` never reads the file, destroys the stack and exits with status 0. -/
theorem unreadable_config_counterexample :
    unreadableWorld.readFile (lit "nixos.yml")
      = Except.error ⟨lit "open nixos.yml: no such file or directory"⟩ ∧
    main unreadableWorld =
      ⟨[Event.upsertStack (lit "dev") (lit "nixostest"),
        Event.installPlugin (lit "digitalocean") (lit "v4"),
        Event.setConfig (lit "digitalocean:token") (lit "dop_v1_token"),
        Event.refresh,
        Event.log (lit "bringing up the stack...\n"),
        Event.up,
        Event.lookupSshKey (lit "laptop-key"),
        Event.readFile (lit "nixos.yml"),
        Event.log (lit "cannot read config file: open nixos.yml: no such file or directory\n")],
       Outcome.exit 1⟩ ∧
    unreadableDestroyWorld.readFile (lit "nixos.yml")
      = Except.error ⟨lit "open nixos.yml: no such file or directory"⟩ ∧
    main unreadableDestroyWorld =
      ⟨[Event.upsertStack (lit "dev") (lit "nixostest"),
        Event.installPlugin (lit "digitalocean") (lit "v4"),
        Event.setConfig (lit "digitalocean:token") (lit "dop_v1_token"),
        Event.refresh,
        Event.log (lit "destroying stack...\n"),
        Event.destroy,
        Event.log (lit "stack destroyed\n")],
       Outcome.exit 0⟩ :=
  ⟨rfl, rfl, rfl, rfl⟩

/-- C3, amended: in every run in which `nixos.yml` cannot be read, no droplet
is declared and no output is registered; and if the run attempts the read
(which happens inside the declaration, during `up`), then the setup calls,
the `up` call and the SSH-key lookup have been issued before it, and the run
ends right after the read with the line "cannot read config file: ..." and
exit status 1. -/
theorem unreadable_config_run (w : World) (e : GoError)
    (hread : w.readFile (lit "nixos.yml") = Except.error e) :
    (∀ n a, Event.newDroplet n a ∉ (main w).trace) ∧
    (∀ k v, Event.ctxExport k v ∉ (main w).trace) ∧
    (Event.readFile (lit "nixos.yml") ∈ (main w).trace →
      main w =
        ⟨setupEvents w ++
          [Event.log (lit "bringing up the stack..." ++ lit "\n"),
           Event.up,
           Event.lookupSshKey (w.getenv (lit "SSH_HOST")),
           Event.readFile (lit "nixos.yml"),
           Event.log (lit "cannot read config file: " ++ e.msg ++ lit "\n")],
         Outcome.exit 1⟩) := by
  rcases hargs : w.osArgs with _ | ⟨prog, args⟩
  · rw [main_of_no_args w hargs]
    simp
  rcases h1 : w.upsertStack (lit "dev") (lit "nixostest") with _ | e1
  swap
  · rw [main_of_upsert_error w prog args e1 hargs h1]
    simp
  rcases h2 : w.installPlugin (lit "digitalocean") (lit "v4") with _ | e2
  swap
  · rw [main_of_install_error w prog args e2 hargs h1 h2]
    simp
  rcases h3 : w.refresh with _ | e3
  swap
  · rw [main_of_refresh_error w prog args e3 hargs h1 h2 h3]
    simp [setupEvents]
  by_cases hmode : args.head? = some (lit "destroy")
  · rcases h4 : w.destroy with _ | e4
    · rw [main_of_destroyed w prog args hargs hmode h1 h2 h3 h4]
      simp [setupEvents]
    · rw [main_of_destroy_error w prog args e4 hargs hmode h1 h2 h3 h4]
      simp [setupEvents]
  rcases h6 : w.upPreflight with _ | e6
  swap
  · rw [main_of_up_error w prog args _ e6 hargs hmode h1 h2 h3 (stackUp_of_preflight w e6 h6)]
    simp [setupEvents]
  rcases hlook : w.lookupSshKey (w.getenv (lit "SSH_HOST")) with e5 | key
  · have hst := stackUp_of_returned w _ _ h6 (deployFunc_of_lookup_error w e5 hlook)
    rcases h7 : w.upFinish (some e5) with e7 | res
    · rw [h7] at hst
      rw [main_of_up_error w prog args _ e7 hargs hmode h1 h2 h3 hst]
      simp [setupEvents]
    · rw [h7] at hst
      rw [main_of_up_ok w prog args _ res hargs hmode h1 h2 h3 hst]
      split <;> simp [setupEvents]
  · have hst := stackUp_of_exit w _ 1 h6 (deployFunc_of_read_error w key e hlook hread)
    rw [main_of_up_exit w prog args _ 1 hargs hmode h1 h2 h3 hst]
    simp [setupEvents]

/-- Witness of the amended C3 in a world without `nixos.yml`. -/
theorem unreadable_config_run_witness :
    (∀ n a, Event.newDroplet n a ∉ (main unreadableWorld).trace) ∧
    (∀ k v, Event.ctxExport k v ∉ (main unreadableWorld).trace) ∧
    main unreadableWorld =
      ⟨setupEvents unreadableWorld ++
        [Event.log (lit "bringing up the stack..." ++ lit "\n"),
         Event.up,
         Event.lookupSshKey (lit "laptop-key"),
         Event.readFile (lit "nixos.yml"),
         Event.log (lit "cannot read config file: "
           ++ lit "open nixos.yml: no such file or directory" ++ lit "\n")],
       Outcome.exit 1⟩ :=
  have h := unreadable_config_run unreadableWorld
    ⟨lit "open nixos.yml: no such file or directory"⟩ rfl
  ⟨h.1, h.2.1, h.2.2 (by decide)⟩

/-- C9, as stated, fails: when the SSH-key lookup fails with the text "boom",
the program logs the bare line "boom" from the declaration, keeps running,
and logs a second line, naming `up`, before it terminates; and when the stack
upsert fails with the same text, the single line is that same bare "boom",
which names no step. -/
theorem failure_log_counterexample :
    main noKeyWorld =
      ⟨[Event.upsertStack (lit "dev") (lit "nixostest"),
        Event.installPlugin (lit "digitalocean") (lit "v4"),
        Event.setConfig (lit "digitalocean:token") (lit "dop_v1_token"),
        Event.refresh,
        Event.log (lit "bringing up the stack...\n"),
        Event.up,
        Event.lookupSshKey (lit "laptop-key"),
        Event.log (lit "boom\n"),
        Event.log (lit "failed to bring up the stack: program failed: boom\n")],
       Outcome.exit 1⟩ ∧
    main upsertFailWorld =
      ⟨[Event.upsertStack (lit "dev") (lit "nixostest"),
        Event.log (lit "boom\n")],
       Outcome.exit 1⟩ :=
  ⟨rfl, rfl⟩

/-- C9, amended: a run that fails at plugin install, refresh, destroy, the
config-file read or `up` emits exactly one log line for that failure, made of
the step's own prefix, the error text and a newline, and terminates with
status 1 right after it; for `up` this covers the engine failing before it
runs the declaration, `up` failing after the droplet declaration returned an
error, and `up` failing after the declaration returned nil.  A run that fails
at the stack upsert emits exactly one log line and terminates with status 1
right after it.  A failed SSH-key lookup makes the declaration log the error
text alone and return; if `up` then returns an error, the line of `up` follows
as a second line and the run terminates with status 1. -/
theorem failure_log_lines (w : World) (prog : GoString) (args : List GoString)
    (hargs : w.osArgs = prog :: args) :
    (∀ e, w.upsertStack (lit "dev") (lit "nixostest") = some e →
      ∃ line, main w = ⟨[Event.upsertStack (lit "dev") (lit "nixostest"),
                         Event.log line], Outcome.exit 1⟩) ∧
    (w.upsertStack (lit "dev") (lit "nixostest") = none →
      (∀ e, w.installPlugin (lit "digitalocean") (lit "v4") = some e →
        main w = ⟨[Event.upsertStack (lit "dev") (lit "nixostest"),
                   Event.installPlugin (lit "digitalocean") (lit "v4"),
                   Event.log (lit "failed to install DO plugin: " ++ e.msg ++ lit "\n")],
                  Outcome.exit 1⟩) ∧
      (w.installPlugin (lit "digitalocean") (lit "v4") = none →
        (∀ e, w.refresh = some e →
          main w = ⟨setupEvents w ++
                     [Event.log (lit "failed to refresh the stack: " ++ e.msg ++ lit "\n")],
                    Outcome.exit 1⟩) ∧
        (w.refresh = none →
          (args.head? = some (lit "destroy") → ∀ e, w.destroy = some e →
            main w = ⟨setupEvents w ++
                       [Event.log (lit "destroying stack..." ++ lit "\n"),
                        Event.destroy,
                        Event.log (lit "failed to destroy stack: " ++ e.msg ++ lit "\n")],
                      Outcome.exit 1⟩) ∧
          (args.head? ≠ some (lit "destroy") →
            (∀ e, w.upPreflight = some e →
              main w = ⟨setupEvents w ++
                         [Event.log (lit "bringing up the stack..." ++ lit "\n"),
                          Event.up,
                          Event.log
                            (lit "failed to bring up the stack: " ++ e.msg ++ lit "\n")],
                        Outcome.exit 1⟩) ∧
            (w.upPreflight = none →
              (∀ e e2, w.lookupSshKey (w.getenv (lit "SSH_HOST")) = Except.error e →
                w.upFinish (some e) = Except.error e2 →
                main w = ⟨setupEvents w ++
                           [Event.log (lit "bringing up the stack..." ++ lit "\n"),
                            Event.up,
                            Event.lookupSshKey (w.getenv (lit "SSH_HOST")),
                            Event.log (e.msg ++ lit "\n"),
                            Event.log
                              (lit "failed to bring up the stack: " ++ e2.msg ++ lit "\n")],
                          Outcome.exit 1⟩) ∧
              (∀ key, w.lookupSshKey (w.getenv (lit "SSH_HOST")) = Except.ok key →
                (∀ e, w.readFile (lit "nixos.yml") = Except.error e →
                  main w = ⟨setupEvents w ++
                             [Event.log (lit "bringing up the stack..." ++ lit "\n"),
                              Event.up,
                              Event.lookupSshKey (w.getenv (lit "SSH_HOST")),
                              Event.readFile (lit "nixos.yml"),
                              Event.log
                                (lit "cannot read config file: " ++ e.msg ++ lit "\n")],
                            Outcome.exit 1⟩) ∧
                (∀ c, w.readFile (lit "nixos.yml") = Except.ok c →
                  (∀ e e2,
                    w.newDroplet (lit "temp-drop") (expectedArgs key.Fingerprint c)
                      = Except.error e →
                    w.upFinish (some e) = Except.error e2 →
                    main w = ⟨setupEvents w ++
                               [Event.log (lit "bringing up the stack..." ++ lit "\n"),
                                Event.up,
                                Event.lookupSshKey (w.getenv (lit "SSH_HOST")),
                                Event.readFile (lit "nixos.yml"),
                                Event.newDroplet (lit "temp-drop")
                                  (expectedArgs key.Fingerprint c),
                                Event.log
                                  (lit "failed to bring up the stack: " ++ e2.msg
                                    ++ lit "\n")],
                              Outcome.exit 1⟩) ∧
                  (∀ d e,
                    w.newDroplet (lit "temp-drop") (expectedArgs key.Fingerprint c)
                      = Except.ok d →
                    w.upFinish none = Except.error e →
                    main w = ⟨setupEvents w ++
                               [Event.log (lit "bringing up the stack..." ++ lit "\n"),
                                Event.up,
                                Event.lookupSshKey (w.getenv (lit "SSH_HOST")),
                                Event.readFile (lit "nixos.yml"),
                                Event.newDroplet (lit "temp-drop")
                                  (expectedArgs key.Fingerprint c),
                                Event.ctxExport (lit "dropletIP") d.Ipv4Address,
                                Event.ctxExport (lit "dropletName") d.Name,
                                Event.log
                                  (lit "failed to bring up the stack: " ++ e.msg
                                    ++ lit "\n")],
                              Outcome.exit 1⟩)))))))) := by
  refine ⟨fun e h1 => ⟨_, main_of_upsert_error w prog args e hargs h1⟩, fun h1 => ?_⟩
  refine ⟨fun e h2 => main_of_install_error w prog args e hargs h1 h2, fun h2 => ?_⟩
  refine ⟨fun e h3 => main_of_refresh_error w prog args e hargs h1 h2 h3, fun h3 => ?_⟩
  refine ⟨fun hmode e h4 => main_of_destroy_error w prog args e hargs hmode h1 h2 h3 h4,
    fun hmode => ⟨?_, fun h6 => ⟨?_, fun key hlook => ⟨?_, fun c hread => ⟨?_, ?_⟩⟩⟩⟩⟩
  · intro e h6
    rw [main_of_up_error w prog args _ e hargs hmode h1 h2 h3 (stackUp_of_preflight w e h6)]
    simp
  · intro e e2 hlook h7
    have hst := stackUp_of_returned w _ _ h6 (deployFunc_of_lookup_error w e hlook)
    rw [h7] at hst
    rw [main_of_up_error w prog args _ e2 hargs hmode h1 h2 h3 hst]
    simp
  · intro e hread
    have hst := stackUp_of_exit w _ 1 h6 (deployFunc_of_read_error w key e hlook hread)
    rw [main_of_up_exit w prog args _ 1 hargs hmode h1 h2 h3 hst]
    simp
  · intro e e2 hnew h7
    have hst := stackUp_of_returned w _ _ h6
      (deployFunc_of_declare_error w key c e hlook hread hnew)
    rw [h7] at hst
    rw [main_of_up_error w prog args _ e2 hargs hmode h1 h2 h3 hst]
    simp
  · intro d e hnew h7
    have hst := stackUp_of_returned w _ _ h6
      (deployFunc_of_declared w key c d hlook hread hnew)
    rw [h7] at hst
    rw [main_of_up_error w prog args _ e hargs hmode h1 h2 h3 hst]
    simp

/-- Witness of the amended C9: one failing run, with its whole trace, for each
step and for each way `up` can fail. -/
theorem failure_log_lines_witness :
    (∃ line, main upsertFailWorld =
      ⟨[Event.upsertStack (lit "dev") (lit "nixostest"),
        Event.log line], Outcome.exit 1⟩) ∧
    main installFailWorld =
      ⟨[Event.upsertStack (lit "dev") (lit "nixostest"),
        Event.installPlugin (lit "digitalocean") (lit "v4"),
        Event.log (lit "failed to install DO plugin: " ++ lit "boom" ++ lit "\n")],
       Outcome.exit 1⟩ ∧
    main refreshFailWorld =
      ⟨setupEvents refreshFailWorld ++
        [Event.log (lit "failed to refresh the stack: " ++ lit "boom" ++ lit "\n")],
       Outcome.exit 1⟩ ∧
    main destroyFailWorld =
      ⟨setupEvents destroyFailWorld ++
        [Event.log (lit "destroying stack..." ++ lit "\n"),
         Event.destroy,
         Event.log (lit "failed to destroy stack: " ++ lit "boom" ++ lit "\n")],
       Outcome.exit 1⟩ ∧
    main preflightFailWorld =
      ⟨setupEvents preflightFailWorld ++
        [Event.log (lit "bringing up the stack..." ++ lit "\n"),
         Event.up,
         Event.log (lit "failed to bring up the stack: " ++ lit "boom" ++ lit "\n")],
       Outcome.exit 1⟩ ∧
    main noKeyWorld =
      ⟨setupEvents noKeyWorld ++
        [Event.log (lit "bringing up the stack..." ++ lit "\n"),
         Event.up,
         Event.lookupSshKey (lit "laptop-key"),
         Event.log (lit "boom" ++ lit "\n"),
         Event.log (lit "failed to bring up the stack: "
           ++ (lit "program failed: " ++ lit "boom") ++ lit "\n")],
       Outcome.exit 1⟩ ∧
    main unreadableWorld =
      ⟨setupEvents unreadableWorld ++
        [Event.log (lit "bringing up the stack..." ++ lit "\n"),
         Event.up,
         Event.lookupSshKey (lit "laptop-key"),
         Event.readFile (lit "nixos.yml"),
         Event.log (lit "cannot read config file: "
           ++ lit "open nixos.yml: no such file or directory" ++ lit "\n")],
       Outcome.exit 1⟩ ∧
    main declareFailWorld =
      ⟨setupEvents declareFailWorld ++
        [Event.log (lit "bringing up the stack..." ++ lit "\n"),
         Event.up,
         Event.lookupSshKey (lit "laptop-key"),
         Event.readFile (lit "nixos.yml"),
         Event.newDroplet (lit "temp-drop")
           (expectedArgs (lit "3b:16:bf:e4:8b:00") (lit "#cloud-config\n").bytes),
         Event.log (lit "failed to bring up the stack: "
           ++ (lit "program failed: " ++ lit "boom") ++ lit "\n")],
       Outcome.exit 1⟩ ∧
    main upFailWorld =
      ⟨setupEvents upFailWorld ++
        [Event.log (lit "bringing up the stack..." ++ lit "\n"),
         Event.up,
         Event.lookupSshKey (lit "laptop-key"),
         Event.readFile (lit "nixos.yml"),
         Event.newDroplet (lit "temp-drop")
           (expectedArgs (lit "3b:16:bf:e4:8b:00") (lit "#cloud-config\n").bytes),
         Event.ctxExport (lit "dropletIP") ⟨1⟩,
         Event.ctxExport (lit "dropletName") ⟨2⟩,
         Event.log (lit "failed to bring up the stack: " ++ lit "boom" ++ lit "\n")],
       Outcome.exit 1⟩ :=
  ⟨(failure_log_lines upsertFailWorld (lit "nixostest") [] rfl).1 ⟨lit "boom"⟩ rfl,
   ((failure_log_lines installFailWorld (lit "nixostest") [] rfl).2 rfl).1 ⟨lit "boom"⟩ rfl,
   (((failure_log_lines refreshFailWorld (lit "nixostest") [] rfl).2 rfl).2 rfl).1
      ⟨lit "boom"⟩ rfl,
   ((((failure_log_lines destroyFailWorld (lit "nixostest") [lit "destroy"] rfl).2 rfl).2
      rfl).2 rfl).1 rfl ⟨lit "boom"⟩ rfl,
   (((((failure_log_lines preflightFailWorld (lit "nixostest") [] rfl).2 rfl).2 rfl).2
      rfl).2 (by decide)).1 ⟨lit "boom"⟩ rfl,
   ((((((failure_log_lines noKeyWorld (lit "nixostest") [] rfl).2 rfl).2 rfl).2 rfl).2
      (by decide)).2 rfl).1 ⟨lit "boom"⟩ ⟨lit "program failed: " ++ lit "boom"⟩ rfl rfl,
   (((((((failure_log_lines unreadableWorld (lit "nixostest") [] rfl).2 rfl).2 rfl).2
      rfl).2 (by decide)).2 rfl).2
      ⟨lit "3b:16:bf:e4:8b:00", lit "512189", lit "laptop-key", lit "ssh-ed25519 AAAA"⟩
      rfl).1 ⟨lit "open nixos.yml: no such file or directory"⟩ rfl,
   ((((((((failure_log_lines declareFailWorld (lit "nixostest") [] rfl).2 rfl).2 rfl).2
      rfl).2 (by decide)).2 rfl).2
      ⟨lit "3b:16:bf:e4:8b:00", lit "512189", lit "laptop-key", lit "ssh-ed25519 AAAA"⟩
      rfl).2 (lit "#cloud-config\n").bytes rfl).1
      ⟨lit "boom"⟩ ⟨lit "program failed: " ++ lit "boom"⟩ rfl rfl,
   ((((((((failure_log_lines upFailWorld (lit "nixostest") [] rfl).2 rfl).2 rfl).2
      rfl).2 (by decide)).2 rfl).2
      ⟨lit "3b:16:bf:e4:8b:00", lit "512189", lit "laptop-key", lit "ssh-ed25519 AAAA"⟩
      rfl).2 (lit "#cloud-config\n").bytes rfl).2
      ⟨⟨1⟩, ⟨2⟩⟩ ⟨lit "boom"⟩ rfl rfl⟩

/-- C2 fails on the code at the token injection: in a world where `SetConfig`
returns an error and every other step succeeds, the run does not log that
error and does not terminate; it goes on to refresh the stack and bring it
up, prints the outputs and returns normally (exit status 0). -/
theorem setConfig_error_ignored :
    setConfigFailWorld.setConfig (lit "digitalocean:token") (lit "dop_v1_token")
      = some ⟨lit "failed to set config: exit status 255"⟩ ∧
    main setConfigFailWorld =
      ⟨[Event.upsertStack (lit "dev") (lit "nixostest"),
        Event.installPlugin (lit "digitalocean") (lit "v4"),
        Event.setConfig (lit "digitalocean:token") (lit "dop_v1_token"),
        Event.refresh,
        Event.log (lit "bringing up the stack...\n"),
        Event.up,
        Event.lookupSshKey (lit "laptop-key"),
        Event.readFile (lit "nixos.yml"),
        Event.newDroplet (lit "temp-drop")
          (expectedArgs (lit "3b:16:bf:e4:8b:00") (lit "#cloud-config\n").bytes),
        Event.ctxExport (lit "dropletIP") ⟨1⟩,
        Event.ctxExport (lit "dropletName") ⟨2⟩,
        Event.log (lit "Done, droplet IP 203.0.113.7\n"),
        Event.log (lit "droplet Name temp-drop-1a2b3c\n")],
       Outcome.done ()⟩ :=
  ⟨rfl, rfl⟩

end Nixostest
